import Mathlib

/-!
Shallow embedding of the cross-service authentication core of the
library-microservices repository (Books Service + Authentication Service)
and proofs about it.

Relevant source files:
* books_service/books_service/custom_auth.py  (StatelessJWTAuthentication)
* books_service/books/views.py                (BookViewSet.perform_create)
* auth_service/authentication/views.py        (LogoutView.post)
-/

/-- Payload of a locally validated JWT, as seen by `get_user`:
only the `user_id` claim is read (`validated_token.get("user_id")`),
which may be absent. -/
structure TokenPayload where
  user_id : Option Int
deriving Repr, DecidableEq

/-- Parsed JSON body of the remote user-lookup response.  Each field is
`none` when the corresponding key is absent from the JSON object
(the code reads `data["id"]`, `data["username"]`, `data.get("email", "")`). -/
structure UserBody where
  id : Option Int
  username : Option String
  email : Option String
deriving Repr, DecidableEq

/-- Outcome of the single `requests.get` call in `get_user`: an HTTP
response with a status code and JSON body, or one of the exception
classes caught by the code (`requests.Timeout`, `requests.ConnectionError`,
any other `requests.RequestException`). -/
inductive RemoteOutcome where
  | response (status : Nat) (body : UserBody)
  | timeout
  | connectionError
  | requestException (msg : String)
deriving Repr, DecidableEq

/-- The ephemeral per-request user object built by `get_user` on a 200
response (class `StatelessUser` in custom_auth.py). -/
structure StatelessUser where
  id : Int
  username : String
  email : String
  is_authenticated : Bool
  is_active : Bool
  is_anonymous : Bool
deriving Repr, DecidableEq

/-- Result of `get_user`: a constructed user, an `AuthenticationFailed`
exception with its message (which DRF maps to a 401 response), or an
unhandled `KeyError` escaping the function (the `except` clauses only
catch `requests` exceptions). -/
inductive AuthResult where
  | success (u : StatelessUser)
  | authFailed (msg : String)
  | keyError (key : String)
deriving Repr, DecidableEq

/-- The outgoing HTTP request issued by `get_user`:
`requests.get(url, headers=headers, timeout=5)`. -/
structure HttpRequest where
  url : String
  headers : List (String × String)
  timeout : Nat
deriving Repr, DecidableEq

/-- Python truthiness of the recovered raw token (`if raw_token:`):
`None` and the empty string are falsy. -/
def pyTruthyStr : Option String → Bool
  | none => false
  | some s => s ≠ ""

/-- Headers built by `get_user`: start from `{}` and add
`Authorization: Bearer <raw_token>` only when `raw_token` is truthy. -/
def mkHeaders (rawToken : Option String) : List (String × String) :=
  if pyTruthyStr rawToken then
    [("Authorization", "Bearer " ++ rawToken.getD "")]
  else []

/-- Interpretation of the remote outcome by `get_user` (custom_auth.py
lines 71-106).  On 200 the body is read with `data["id"]` and
`data["username"]` (a missing key raises `KeyError`, evaluated in this
order) and `data.get("email", "")`; 404, 401 and any other status raise
`AuthenticationFailed` with the messages below, as do the three caught
exception classes. -/
def interpretResponse : RemoteOutcome → AuthResult
  | .response s body =>
    if s = 200 then
      match body.id with
      | none => .keyError "id"
      | some i =>
        match body.username with
        | none => .keyError "username"
        | some u =>
          .success { id := i, username := u, email := body.email.getD "",
                     is_authenticated := true, is_active := true,
                     is_anonymous := false }
    else if s = 404 then .authFailed "User not found in Auth Service"
    else if s = 401 then .authFailed "Invalid or expired token"
    else .authFailed ("Auth Service error: " ++ toString s)
  | .timeout => .authFailed "Auth Service timeout"
  | .connectionError => .authFailed "Cannot connect to Auth Service"
  | .requestException m => .authFailed ("Auth Service request failed: " ++ m)

/-- `StatelessJWTAuthentication.get_user`.  `base` is the configured
`AUTH_SERVICE_URL`; `rawToken` is the raw bearer string recovered from the
request object found on the call stack (`None` when no frame carries one);
`remote` gives the outcome of the single synchronous `requests.get`.
The returned list records every outgoing HTTP request the call issued.
The `user_id` claim is checked with Python truthiness (`if not user_id:`),
so both an absent claim and the value `0` fail with "Token has no user_id". -/
def get_user (base : String) (payload : TokenPayload) (rawToken : Option String)
    (remote : HttpRequest → RemoteOutcome) : AuthResult × List HttpRequest :=
  match payload.user_id with
  | none => (.authFailed "Token has no user_id", [])
  | some uid =>
    if uid = 0 then (.authFailed "Token has no user_id", [])
    else
      let req : HttpRequest :=
        { url := base ++ "/api/auth/users/" ++ toString uid ++ "/",
          headers := mkHeaders rawToken, timeout := 5 }
      (interpretResponse (remote req), [req])

/-- Helper for Python's `str.split()` with no argument: split on runs of
spaces, discarding empty parts.  `acc` holds the characters of the word
being read, in reverse. -/
def wordsAux : List Char → List Char → List String
  | [], acc => if acc.isEmpty then [] else [String.mk acc.reverse]
  | c :: cs, acc =>
    if c = ' ' then
      if acc.isEmpty then wordsAux cs []
      else String.mk acc.reverse :: wordsAux cs []
    else wordsAux cs (c :: acc)

/-- Python `header.split()` on the space character. -/
def pySplit (s : String) : List String :=
  wordsAux s.data []

/-- Extraction of the raw token from the Authorization header value
(simple-jwt `get_raw_token` with header types `("Bearer",)`):
split on whitespace; an empty split or a first part other than `Bearer`
yields no credential (anonymous); a `Bearer` header that does not have
exactly two parts raises `AuthenticationFailed`. -/
def get_raw_token (header : String) : Except String (Option String) :=
  match pySplit header with
  | [] => .ok none
  | ty :: rest =>
    if ty = "Bearer" then
      match rest with
      | [tok] => .ok (some tok)
      | _ => .error "Authorization header contained spaces"
    else .ok none

/-- Overall result of `StatelessJWTAuthentication.authenticate`:
`anonymous` models returning `None` (no credential), `failed` an
`AuthenticationFailed` exception (DRF responds 401), `crashedKeyError` an
unhandled `KeyError` escaping authentication, and `ok` the
`(user, validated_token)` pair. -/
inductive AuthenticateResult where
  | anonymous
  | failed (msg : String)
  | crashedKeyError (key : String)
  | ok (user : StatelessUser) (tok : TokenPayload)
deriving Repr, DecidableEq

/-- `StatelessJWTAuthentication.authenticate` (custom_auth.py lines 16-38).
`validate` models `get_validated_token`: local signature/expiry
verification of the raw token, `none` meaning it raises (an invalid
token).  On local success the raw bearer string is stored on the request
(`request._raw_token`) and recovered inside `get_user` by the
call-stack search, so `get_user` receives `some raw`.  The second
component records every remote HTTP request issued. -/
def authenticate (base : String) (header : Option String)
    (validate : String → Option TokenPayload)
    (remote : HttpRequest → RemoteOutcome) :
    AuthenticateResult × List HttpRequest :=
  match header with
  | none => (.anonymous, [])
  | some h =>
    match get_raw_token h with
    | .error m => (.failed m, [])
    | .ok none => (.anonymous, [])
    | .ok (some raw) =>
      match validate raw with
      | none => (.failed "Given token not valid for any token type", [])
      | some payload =>
        match get_user base payload (some raw) remote with
        | (.success u, tr) => (.ok u payload, tr)
        | (.authFailed m, tr) => (.failed m, tr)
        | (.keyError k, tr) => (.crashedKeyError k, tr)

/-- Every word produced by the whitespace split is a nonempty string. -/
theorem wordsAux_ne_empty (cs : List Char) :
    ∀ (acc : List Char) (x : String), x ∈ wordsAux cs acc → x ≠ "" := by
  induction cs with
  | nil =>
    intro acc x hx
    unfold wordsAux at hx
    by_cases hacc : acc.isEmpty
    · simp [hacc] at hx
    · simp [hacc] at hx
      subst hx
      intro hcon
      have h2 : acc.reverse = [] := by simpa using congrArg String.data hcon
      have h3 : acc = [] := by simpa using h2
      simp [h3] at hacc
  | cons c cs ih =>
    intro acc x hx
    unfold wordsAux at hx
    by_cases hc : c = ' '
    · by_cases hacc : acc.isEmpty
      · simp [hc, hacc] at hx
        exact ih [] x hx
      · simp [hc, hacc] at hx
        rcases hx with hx | hx
        · subst hx
          intro hcon
          have h2 : acc.reverse = [] := by simpa using congrArg String.data hcon
          have h3 : acc = [] := by simpa using h2
          simp [h3] at hacc
        · exact ih [] x hx
    · simp [hc] at hx
      exact ih (c :: acc) x hx

/-- A raw token produced by `get_raw_token` is a nonempty string: it is an
element of the whitespace split, which discards empty parts. -/
theorem get_raw_token_ne_empty (h tok : String)
    (hr : get_raw_token h = .ok (some tok)) : tok ≠ "" := by
  unfold get_raw_token at hr
  revert hr
  cases hlist : pySplit h with
  | nil => intro hr; cases hr
  | cons ty rest =>
    intro hr
    by_cases hty : ty = "Bearer"
    · cases rest with
      | nil => simp [hty] at hr
      | cons a tl =>
        cases tl with
        | nil =>
          simp [hty] at hr
          rw [← hr]
          have hmem : a ∈ pySplit h := by
            rw [hlist]
            exact List.mem_cons_of_mem _ (List.mem_singleton.mpr rfl)
          exact wordsAux_ne_empty h.data [] a hmem
        | cons b tl2 => simp [hty] at hr
    · simp [hty] at hr

/-- Input fields of a book accepted by the serializer
(books/models.py: title, author, genre, publication_year). -/
structure BookInput where
  title : String
  author : String
  genre : String
  publication_year : Nat
deriving Repr, DecidableEq

/-- A stored book record.  `user_id` is a loose integer reference to a
user of the Authentication Service, not a foreign key; it is `none` when
the saved value was Python `None`. -/
structure BookRec where
  title : String
  author : String
  genre : String
  publication_year : Nat
  user_id : Option Int
deriving Repr, DecidableEq

/-- `BookViewSet.perform_create` (books/views.py lines 66-82):
`serializer.save(user_id=getattr(self.request.user, "id", None))`.
The request user is `some u` for an authenticated principal and `none`
when no user object carrying an id is attached. -/
def perform_create (user : Option StatelessUser) (data : BookInput) : BookRec :=
  { title := data.title, author := data.author, genre := data.genre,
    publication_year := data.publication_year,
    user_id := user.map (fun u => u.id) }

/-- The principal seen by the Authorization Gate. -/
structure Principal where
  id : Int
  is_staff : Bool
  is_authenticated : Bool
deriving Repr, DecidableEq

/-- ViewSet actions of the Books Service (DRF names; `updatePartial`
stands for the PATCH action and `destroy` for DELETE). -/
inductive BookAction where
  | list
  | retrieve
  | create
  | update
  | updatePartial
  | destroy
deriving Repr, DecidableEq

/-- Modelled from the spec: the Authorization Gate policy of the
permission classes `IsAdminOrReadOnly` and `IsOwnerOrAdmin` named at
books/views.py line 47 — the file books/permissions.py itself is not
among the provided sources.  Spec 4.3: read actions and `create` are
allowed for any authenticated principal; update and partial-update only
if `principal.id == book.user_id` or `principal.is_staff`; delete only if
`principal.is_staff`; unauthenticated principals are denied all actions. -/
def authorize (p : Principal) (b : BookRec) (a : BookAction) : Bool :=
  if p.is_authenticated = false then false
  else
    match a with
    | .list => true
    | .retrieve => true
    | .create => true
    | .update => (b.user_id == some p.id) || p.is_staff
    | .updatePartial => (b.user_id == some p.id) || p.is_staff
    | .destroy => p.is_staff

/-- A refresh credential as seen by the Authentication Service:
its persisted `jti`, subject, expiry instant and whether its signature
verifies (`sig_valid` models the outcome of the cryptographic check). -/
structure RefreshCredential where
  jti : String
  subject_id : Int
  expiry : Nat
  sig_valid : Bool
deriving Repr, DecidableEq

/-- Modelled from the spec: verification run when a `RefreshToken` object
is constructed from a presented refresh string (rest_framework_simplejwt,
a dependency not under the provided sources): signature and expiry are
checked, and with the token blacklist enabled the credential is rejected
when its `jti` is already in the Revocation Set — spec 3: "once revoked,
permanently invalid regardless of signature validity". -/
def refreshTokenVerify (now : Nat) (revoked : Finset String)
    (c : RefreshCredential) : Except String RefreshCredential :=
  if c.sig_valid = false then .error "Token is invalid or expired"
  else if c.expiry ≤ now then .error "Token is invalid or expired"
  else if c.jti ∈ revoked then .error "Token is blacklisted"
  else .ok c

/-- `revoke`: adding the credential's `jti` to the Revocation Set, the
effect of `token.blacklist()` (a `get_or_create` on the blacklist table). -/
def revoke (revoked : Finset String) (c : RefreshCredential) : Finset String :=
  insert c.jti revoked

/-- Modelled from the spec: `refresh(RefreshCredential) -> AccessCredential
| AuthError` (served by simplejwt's `TokenRefreshView`, wired in
auth_service/authentication/urls.py but not itself under the provided
sources): it "fails if the credential is expired, malformed, or its jti is
in the Revocation Set"; on success it mints an access credential for the
same subject. -/
def token_refresh (now : Nat) (revoked : Finset String)
    (c : RefreshCredential) : Except String Int :=
  match refreshTokenVerify now revoked c with
  | .error m => .error m
  | .ok c => .ok c.subject_id

/-- HTTP-level outcome of `LogoutView.post`. -/
inductive LogoutOutcome where
  | ok200 (msg : String)
  | badRequest (msg : String)
deriving Repr, DecidableEq

/-- `LogoutView.post` (auth_service/authentication/views.py lines
269-294): a missing `refresh` field answers 400; otherwise
`RefreshToken(refresh_token)` is constructed — any exception it raises
(invalid signature, expiry, or an already-blacklisted `jti`) is caught
and answered with 400 "Невалідний токен"; on success `token.blacklist()`
adds the `jti` to the Revocation Set and the view answers 200.
Returns the response together with the updated Revocation Set. -/
def logout_post (now : Nat) (revoked : Finset String)
    (body_refresh : Option RefreshCredential) :
    LogoutOutcome × Finset String :=
  match body_refresh with
  | none => (.badRequest "Refresh token обов\x27язковий", revoked)
  | some c =>
    match refreshTokenVerify now revoked c with
    | .error _ => (.badRequest "Невалідний токен", revoked)
    | .ok c => (.ok200 "Успішний вихід з системи", revoke revoked c)

/-- C1: when local verification succeeds, the single remote call targets
`users/{subject_id}` under the configured base URL (concretely
`{base}/api/auth/users/{user_id}/`) and always carries an Authorization
header equal to "Bearer " followed by the exact raw token that was
locally verified. -/
theorem C1_remote_call_url_and_bearer_header
    (base h tok : String) (validate : String → Option TokenPayload)
    (remote : HttpRequest → RemoteOutcome) (payload : TokenPayload) (uid : Int)
    (hraw : get_raw_token h = Except.ok (some tok))
    (hval : validate tok = some payload)
    (huid : payload.user_id = some uid) (hnz : ¬ uid = 0) :
    (authenticate base (some h) validate remote).2 =
      [{ url := base ++ "/api/auth/users/" ++ toString uid ++ "/",
         headers := [("Authorization", "Bearer " ++ tok)], timeout := 5 }] := by
  have hne : tok ≠ "" := get_raw_token_ne_empty h tok hraw
  have htr : (get_user base payload (some tok) remote).2 =
      [{ url := base ++ "/api/auth/users/" ++ toString uid ++ "/",
         headers := [("Authorization", "Bearer " ++ tok)], timeout := 5 }] := by
    unfold get_user
    rw [huid]
    simp [if_neg hnz, mkHeaders, pyTruthyStr, hne]
  simp only [authenticate, hraw, hval]
  rcases hg : get_user base payload (some tok) remote with ⟨r, tr⟩
  rw [hg] at htr
  cases r <;> simpa using htr

/-- C1 witness: concrete instantiation of the theorem. -/
theorem C1_witness :
    (authenticate "http://localhost:8001" (some "Bearer tok42")
        (fun s => if s = "tok42" then some { user_id := some 42 } else none)
        (fun _ => RemoteOutcome.timeout)).2 =
      [{ url := "http://localhost:8001" ++ "/api/auth/users/" ++ toString (42 : Int) ++ "/",
         headers := [("Authorization", "Bearer " ++ "tok42")], timeout := 5 }] :=
  C1_remote_call_url_and_bearer_header "http://localhost:8001" "Bearer tok42" "tok42"
    (fun s => if s = "tok42" then some { user_id := some 42 } else none)
    (fun _ => RemoteOutcome.timeout) { user_id := some 42 } 42
    (by rfl) (by decide) rfl (by decide)

/-- Whether a `get_user` outcome is a constructed principal. -/
def isSuccess : AuthResult → Bool
  | .success _ => true
  | _ => false

/-- Whether a `get_user` outcome is an `AuthenticationFailed` exception
(the failure kind that DRF maps to a 401 response). -/
def isAuthFailure : AuthResult → Bool
  | .authFailed _ => true
  | _ => false

/-- C2 counterexample: a remote HTTP 200 response whose body lacks the
"id" key yields neither a successful principal nor an authentication
failure — it raises an unhandled KeyError — so the claimed six outcomes
are not exhaustive over all remote responses. -/
theorem C2_counterexample :
    isSuccess (interpretResponse
        (.response 200 { id := none, username := none, email := none })) = false ∧
    isAuthFailure (interpretResponse
        (.response 200 { id := none, username := none, email := none })) = false := by
  decide

/-- C2 (amended): for remote responses after successful local
verification, HTTP 200 with a body containing the "id" and "username"
keys yields a successful principal; 404 fails with the user-not-found
message; 401 with the invalid-credential message; any other status with
an upstream-error message carrying that status; a timeout and a refused
connection fail with their own messages; all these failures are
`AuthenticationFailed` outcomes and their messages are pairwise
distinct. -/
theorem C2_remote_outcome_mapping :
    (∀ (b : UserBody) (i : Int) (u : String), b.id = some i → b.username = some u →
        interpretResponse (.response 200 b) =
          .success { id := i, username := u, email := b.email.getD "",
                     is_authenticated := true, is_active := true,
                     is_anonymous := false }) ∧
    (∀ b : UserBody, interpretResponse (.response 404 b)
        = .authFailed "User not found in Auth Service") ∧
    (∀ b : UserBody, interpretResponse (.response 401 b)
        = .authFailed "Invalid or expired token") ∧
    (∀ (s : Nat) (b : UserBody), ¬ s = 200 → ¬ s = 404 → ¬ s = 401 →
        interpretResponse (.response s b)
          = .authFailed ("Auth Service error: " ++ toString s)) ∧
    interpretResponse .timeout = .authFailed "Auth Service timeout" ∧
    interpretResponse .connectionError
      = .authFailed "Cannot connect to Auth Service" ∧
    List.Pairwise (fun a b => a ≠ b)
      ["User not found in Auth Service", "Invalid or expired token",
       "Auth Service timeout", "Cannot connect to Auth Service",
       "Auth Service error: " ++ toString (500 : Nat)] := by
  refine ⟨?_, ?_, ?_, ?_, rfl, rfl, ?_⟩
  · intro b i u hid hu
    simp [interpretResponse, hid, hu]
  · intro b
    simp [interpretResponse]
  · intro b
    simp [interpretResponse]
  · intro s b h1 h2 h3
    simp [interpretResponse, h1, h2, h3]
  · decide

/-- C2 witness: concrete instantiations of the amended mapping. -/
theorem C2_witness :
    interpretResponse (.response 200
        { id := some 42, username := some "gala", email := some "g@x.com" })
      = .success { id := 42, username := "gala", email := "g@x.com",
                   is_authenticated := true, is_active := true,
                   is_anonymous := false } ∧
    interpretResponse (.response 503 { id := none, username := none, email := none })
      = .authFailed ("Auth Service error: " ++ toString (503 : Nat)) :=
  ⟨C2_remote_outcome_mapping.1 _ 42 "gala" rfl rfl,
   C2_remote_outcome_mapping.2.2.2.1 503 _ (by decide) (by decide) (by decide)⟩

/-- C3: a bearer credential that fails local signature/expiry
verification makes the resolver fail with the invalid-token message and
no remote HTTP request is issued; an absent Authorization header
short-circuits to the anonymous outcome with no remote request either. -/
theorem C3_local_failure_short_circuits
    (base h tok : String) (validate : String → Option TokenPayload)
    (remote : HttpRequest → RemoteOutcome)
    (hraw : get_raw_token h = Except.ok (some tok))
    (hval : validate tok = none) :
    authenticate base (some h) validate remote
        = (.failed "Given token not valid for any token type", []) ∧
    authenticate base none validate remote = (.anonymous, []) := by
  constructor
  · simp [authenticate, hraw, hval]
  · rfl

/-- C3 witness: concrete instantiation of the theorem. -/
theorem C3_witness :
    authenticate "http://localhost:8001" (some "Bearer bad") (fun _ => none)
        (fun _ => RemoteOutcome.timeout)
        = (.failed "Given token not valid for any token type", []) ∧
    authenticate "http://localhost:8001" none (fun _ => none)
        (fun _ => RemoteOutcome.timeout) = (.anonymous, []) :=
  C3_local_failure_short_circuits "http://localhost:8001" "Bearer bad" "bad"
    (fun _ => none) (fun _ => RemoteOutcome.timeout) (by rfl) rfl

/-- Local verification used in the C4 scenario: the access credential
"tok42" verifies and carries subject identifier 42. -/
def demoValidate : String → Option TokenPayload :=
  fun s => if s = "tok42" then some { user_id := some 42 } else none

/-- Remote endpoint used in the C4 scenario: it answers 200 with the
canonical record of user 42. -/
def demoRemote : HttpRequest → RemoteOutcome :=
  fun _ => .response 200 { id := some 42, username := some "gala", email := some "g@x.com" }

/-- C4: with a locally verified credential whose subject is 42 and a
remote 200 response with body id 42, username "gala", email "g@x.com",
the resolver yields a principal with exactly those fields and
is_authenticated true. -/
theorem C4_resolver_success_scenario :
    authenticate "http://localhost:8001" (some "Bearer tok42") demoValidate demoRemote
      = (.ok { id := 42, username := "gala", email := "g@x.com",
               is_authenticated := true, is_active := true, is_anonymous := false }
             { user_id := some 42 },
         [{ url := "http://localhost:8001/api/auth/users/42/",
            headers := [("Authorization", "Bearer tok42")], timeout := 5 }]) := by
  rfl

/-- C5: for an authenticated principal, update and partial-update are
allowed exactly when the principal owns the book or is staff; delete is
allowed exactly when the principal is staff; in particular a non-staff
owner is denied delete. -/
theorem C5_owner_or_admin_policy (p : Principal) (b : BookRec)
    (hauth : p.is_authenticated = true) :
    (authorize p b .update = true ↔ (b.user_id = some p.id ∨ p.is_staff = true)) ∧
    (authorize p b .updatePartial = true ↔ (b.user_id = some p.id ∨ p.is_staff = true)) ∧
    (authorize p b .destroy = true ↔ p.is_staff = true) ∧
    (b.user_id = some p.id → p.is_staff = false → authorize p b .destroy = false) := by
  refine ⟨?_, ?_, ?_, ?_⟩
  · simp [authorize, hauth]
  · simp [authorize, hauth]
  · simp [authorize, hauth]
  · intro howner hstaff
    simp [authorize, hauth, hstaff]

/-- C5 witness: a non-staff principal owning the book may update it but
may not delete it. -/
theorem C5_witness :
    authorize { id := 5, is_staff := false, is_authenticated := true }
        { title := "b", author := "a", genre := "g", publication_year := 2020,
          user_id := some 5 } .update = true ∧
    authorize { id := 5, is_staff := false, is_authenticated := true }
        { title := "b", author := "a", genre := "g", publication_year := 2020,
          user_id := some 5 } .destroy = false :=
  ⟨(C5_owner_or_admin_policy _ _ rfl).1.mpr (Or.inl rfl),
   (C5_owner_or_admin_policy _ _ rfl).2.2.2 rfl rfl⟩

/-- C6: once a refresh credential has been revoked through a successful
logout (its jti entered the Revocation Set), every later refresh call
presenting it — against any later, larger Revocation Set — fails, with
no condition on the credential's expiry or signature validity. -/
theorem C6_revocation_permanent
    (now now2 : Nat) (s s2 : Finset String) (c : RefreshCredential)
    (hok : refreshTokenVerify now s c = .ok c)
    (hsub : (logout_post now s (some c)).2 ⊆ s2) :
    c.jti ∈ (logout_post now s (some c)).2 ∧
    ∃ m, token_refresh now2 s2 c = .error m := by
  have hpost : logout_post now s (some c)
      = (.ok200 "Успішний вихід з системи", revoke s c) := by
    simp [logout_post, hok]
  have hmem : c.jti ∈ (logout_post now s (some c)).2 := by
    rw [hpost]
    exact Finset.mem_insert_self _ _
  refine ⟨hmem, ?_⟩
  have hmem2 : c.jti ∈ s2 := hsub hmem
  by_cases h1 : c.sig_valid = false
  · exact ⟨"Token is invalid or expired",
      by simp [token_refresh, refreshTokenVerify, h1]⟩
  · by_cases h2 : c.expiry ≤ now2
    · exact ⟨"Token is invalid or expired",
        by simp [token_refresh, refreshTokenVerify, h1, h2]⟩
    · exact ⟨"Token is blacklisted",
        by simp [token_refresh, refreshTokenVerify, h1, h2, hmem2]⟩

/-- C6 witness: concrete instantiation of the theorem. -/
theorem C6_witness :
    ("jti-1" : String) ∈ (logout_post 0 ∅ (some ⟨"jti-1", 7, 100, true⟩)).2 ∧
    ∃ m, token_refresh 1 (logout_post 0 ∅ (some ⟨"jti-1", 7, 100, true⟩)).2
        ⟨"jti-1", 7, 100, true⟩ = .error m :=
  C6_revocation_permanent 0 1 ∅ ((logout_post 0 ∅ (some ⟨"jti-1", 7, 100, true⟩)).2)
    ⟨"jti-1", 7, 100, true⟩ (by rfl) (Finset.Subset.refl _)

/-- C7 counterexample: calling the logout endpoint a second time with the
same, still unexpired refresh credential answers 400 "Невалідний токен" —
the second revoke call does produce an error response, refuting the
"no error" part of the claim. -/
theorem C7_counterexample :
    (logout_post 0 ((logout_post 0 ∅ (some ⟨"jti-2", 9, 100, true⟩)).2)
        (some ⟨"jti-2", 9, 100, true⟩)).1
      = .badRequest "Невалідний токен" := by
  rfl

/-- C7 (amended): revoking twice leaves the Revocation Set unchanged by
the second call and the credential still revoked, but the second call
answers a 400 error response, because the already-blacklisted token
fails verification when the view reconstructs it. -/
theorem C7_second_revoke_same_set_but_error
    (now : Nat) (s : Finset String) (c : RefreshCredential)
    (hok : refreshTokenVerify now s c = .ok c) :
    (logout_post now (logout_post now s (some c)).2 (some c)).2
        = (logout_post now s (some c)).2 ∧
    c.jti ∈ (logout_post now (logout_post now s (some c)).2 (some c)).2 ∧
    (logout_post now (logout_post now s (some c)).2 (some c)).1
        = .badRequest "Невалідний токен" := by
  have h1 : ¬ c.sig_valid = false := by
    intro h
    simp [refreshTokenVerify, h] at hok
  have h2 : ¬ c.expiry ≤ now := by
    intro h
    simp [refreshTokenVerify, h1, h] at hok
  have hpost : logout_post now s (some c)
      = (.ok200 "Успішний вихід з системи", insert c.jti s) := by
    simp [logout_post, hok, revoke]
  have hver2 : refreshTokenVerify now (insert c.jti s) c
      = .error "Token is blacklisted" := by
    simp [refreshTokenVerify, h1, h2]
  rw [hpost]
  simp [logout_post, hver2]

/-- C7 witness: concrete instantiation of the amended theorem. -/
theorem C7_witness :
    (logout_post 0 ((logout_post 0 ∅ (some ⟨"jti-3", 9, 100, true⟩)).2)
        (some ⟨"jti-3", 9, 100, true⟩)).2
      = (logout_post 0 ∅ (some ⟨"jti-3", 9, 100, true⟩)).2 ∧
    ("jti-3" : String) ∈ (logout_post 0 ((logout_post 0 ∅ (some ⟨"jti-3", 9, 100, true⟩)).2)
        (some ⟨"jti-3", 9, 100, true⟩)).2 ∧
    (logout_post 0 ((logout_post 0 ∅ (some ⟨"jti-3", 9, 100, true⟩)).2)
        (some ⟨"jti-3", 9, 100, true⟩)).1 = .badRequest "Невалідний токен" :=
  C7_second_revoke_same_set_but_error 0 ∅ ⟨"jti-3", 9, 100, true⟩ (by rfl)

/-- C8: a book created by an authenticated principal records that
principal's id as its user_id. -/
theorem C8_create_records_owner (u : StatelessUser) (data : BookInput)
    (hauth : u.is_authenticated = true) :
    (perform_create (some u) data).user_id = some u.id := rfl

/-- C8 witness: concrete instantiation of the theorem. -/
theorem C8_witness :
    (perform_create
        (some
          { id := 3, username := "gala", email := "",
            is_authenticated := true, is_active := true, is_anonymous := false })
        { title := "K", author := "A", genre := "F", publication_year := 1999 }).user_id
      = some 3 :=
  C8_create_records_owner
    { id := 3, username := "gala", email := "",
      is_authenticated := true, is_active := true, is_anonymous := false }
    { title := "K", author := "A", genre := "F", publication_year := 1999 } rfl

/-- C9: the principal's identity fields come from the remote 200 body,
not from the verified credential: with a token subject uid and a body id
j that differs from uid, the resolver still succeeds and yields a
principal whose id is j — no cross-check against the credential. -/
theorem C9_principal_id_from_body_not_token
    (base tok : String) (uid j : Int) (uname email : String)
    (hne : ¬ j = uid) (hnz : ¬ uid = 0) :
    (get_user base { user_id := some uid } (some tok)
        (fun _ => .response 200
          { id := some j, username := some uname, email := some email })).1
      = .success { id := j, username := uname, email := email,
                   is_authenticated := true, is_active := true,
                   is_anonymous := false } := by
  unfold get_user
  simp [hnz, interpretResponse]

/-- C9 witness: concrete instantiation of the theorem. -/
theorem C9_witness :
    (get_user "http://localhost:8001" { user_id := some 42 } (some "tok42")
        (fun _ => .response 200
          { id := some 7, username := some "eve", email := some "e@x.com" })).1
      = .success { id := 7, username := "eve", email := "e@x.com",
                   is_authenticated := true, is_active := true,
                   is_anonymous := false } :=
  C9_principal_id_from_body_not_token "http://localhost:8001" "tok42" 42 7
    "eve" "e@x.com" (by decide) (by decide)

/-- C10: on a remote 200 response, a body without the "id" key yields an
unhandled KeyError on "id"; a body with "id" but without "username"
yields an unhandled KeyError on "username"; a missing "email" key is
tolerated and defaults to the empty string; and a KeyError outcome is
never the AuthenticationFailed outcome that maps to a 401 response. -/
theorem C10_missing_body_keys :
    (∀ b : UserBody, b.id = none →
        interpretResponse (.response 200 b) = .keyError "id") ∧
    (∀ (b : UserBody) (i : Int), b.id = some i → b.username = none →
        interpretResponse (.response 200 b) = .keyError "username") ∧
    (∀ (b : UserBody) (i : Int) (u : String), b.id = some i → b.username = some u →
        b.email = none →
        interpretResponse (.response 200 b)
          = .success { id := i, username := u, email := "",
                       is_authenticated := true, is_active := true,
                       is_anonymous := false }) ∧
    (∀ k m : String, AuthResult.keyError k ≠ .authFailed m) := by
  refine ⟨?_, ?_, ?_, ?_⟩
  · intro b hid
    simp [interpretResponse, hid]
  · intro b i hid hu
    simp [interpretResponse, hid, hu]
  · intro b i u hid hu he
    simp [interpretResponse, hid, hu, he]
  · intro k m h
    exact AuthResult.noConfusion h

/-- C10 witness: concrete instantiations of the theorem. -/
theorem C10_witness :
    interpretResponse (.response 200 { id := some 1, username := none, email := some "x" })
      = .keyError "username" ∧
    interpretResponse (.response 200 { id := some 1, username := some "u", email := none })
      = .success { id := 1, username := "u", email := "",
                   is_authenticated := true, is_active := true,
                   is_anonymous := false } :=
  ⟨C10_missing_body_keys.2.1 _ 1 rfl rfl,
   C10_missing_body_keys.2.2.1 _ 1 "u" rfl rfl rfl⟩
